import Mathlib

/-!
# Lifecycle controller of the Megaport port resource

A shallow embedding of `resource_megaport/resource_megaport_port.go`:
the four lifecycle functions `resourceMegaportPortCreate`,
`resourceMegaportPortRead`, `resourceMegaportPortUpdate` and
`resourceMegaportPortDelete`.

Modelling conventions.

* A Go `error` is `Option GoError`; `none` is `nil`.  A Go multi-value return
  `(v, err)` is the pair `(v, err)`: both components are always present, as in Go.
* The remote client is a record of functions giving the answer of each
  collaborator operation for each argument list.  Every lifecycle function calls
  each operation at most once, so an arbitrary function loses no generality over a
  stateful collaborator, and every collaborator call is taken to return.  Two runs
  against the same client are two runs against an unchanged remote system.
* `d.Get` reads the current value of a key and `d.HasChange` compares it with the
  previously recorded value; both are kept in `ResourceData`.
* Every lifecycle function returns an `Outcome`: the returned error, the resource
  data after the run, and the ordered log of the collaborator calls made together
  with the assignment of the resource id.
* Go `int` is `Int` (no arithmetic is performed on it), Go `string` is `String`,
  and `len` is the byte length.
-/

namespace Megaport

/-- An error value; `Error` is the text returned by the `Error()` method. -/
structure GoError where
  Error : String
  deriving DecidableEq, Repr

/-- Go `errors.New`. -/
def errors.New (text : String) : GoError := ⟨text⟩

/-- The result of the verb `%s` of `fmt.Sprintf` on an `error` operand:
the text of `Error()`, and `%!s(<nil>)` for a nil interface value. -/
def fmtS (e : Option GoError) : String :=
  match e with
  | some err => err.Error
  | none => "%!s(<nil>)"

/-- Go `len` on a string: the number of bytes. -/
def len (s : String) : Nat := s.utf8ByteSize

/-- The location record returned by `GetLocationByID`.  Its declaration lies outside
this file; only the field `Market` is read, and the record is taken as a value. -/
structure Location where
  Market : String
  deriving DecidableEq, Repr

/-- The remote port record returned by `GetPortDetails`.  Its declaration lies outside
this file; it is given the fields that `resourceMegaportPortRead` reads (`Type_` is
the Go field `Type`). -/
structure Port where
  UID : String
  Name : String
  Type_ : String
  ProvisioningStatus : String
  CreateDate : Int
  CreatedBy : String
  PortSpeed : Int
  LiveDate : Int
  Market : String
  LocationID : Int
  MarketplaceVisibility : Bool
  CompanyName : String
  ContractTermMonths : Int
  LAGPrimary : Bool
  LAGID : Int
  Locked : Bool
  AdminLocked : Bool
  DiversityZone : String
  deriving DecidableEq, Repr

/-- The values stored under the schema keys that this file reads with `d.Get` or
writes with `d.Set`.  Eighteen keys mirror the remote record; `lag` and
`lag_port_count` are configuration inputs read by Create only. -/
structure Fields where
  uid : String
  port_name : String
  type : String
  provisioning_status : String
  create_date : Int
  created_by : String
  port_speed : Int
  live_date : Int
  market_code : String
  location_id : Int
  marketplace_visibility : Bool
  company_name : String
  term : Int
  lag : Bool
  lag_port_count : Int
  lag_primary : Bool
  lag_id : Int
  locked : Bool
  admin_locked : Bool
  diversity_zone : String
  deriving DecidableEq, Repr

/-- The `*schema.ResourceData` handed to a lifecycle function: the resource id,
the values `d.Get` returns (`fields`), and the previously recorded values that
`d.HasChange` compares them with (`prior`). -/
structure ResourceData where
  id : String
  prior : Fields
  fields : Fields
  deriving DecidableEq, Repr

/-- The keys on which this file calls `d.HasChange`. -/
inductive Key where
  | port_name
  | marketplace_visibility
  | locked
  deriving DecidableEq, Repr

/-- The method `d.Id()`. -/
def ResourceData.Id (d : ResourceData) : String := d.id

/-- The method `d.SetId(v)`. -/
def ResourceData.SetId (d : ResourceData) (v : String) : ResourceData :=
  { d with id := v }

/-- The method `d.HasChange(key)`: the recorded and the current value differ. -/
def ResourceData.HasChange (d : ResourceData) : Key → Bool
  | .port_name => d.prior.port_name != d.fields.port_name
  | .marketplace_visibility => d.prior.marketplace_visibility != d.fields.marketplace_visibility
  | .locked => d.prior.locked != d.fields.locked

/-- The operations of the `Port` collaborator whose results are consulted.
Argument order follows the call sites. -/
structure PortClient where
  BuySinglePort : String → Int → Int → Int → String → Bool → String × Option GoError
  BuyZonedSinglePort : String → Int → Int → Int → String → Bool → String → String × Option GoError
  BuyLAGPort : String → Int → Int → Int → String → Int → Bool → String × Option GoError
  BuyZonedLAGPort :
    String → Int → Int → Int → String → Int → Bool → String → String × Option GoError
  GetPortDetails : String → Port × Option GoError
  ModifyPort : String → String → String → Bool → Bool × Option GoError
  LockPort : String → Bool × Option GoError
  UnlockPort : String → Bool × Option GoError
  DeletePort : String → Bool → Bool × Option GoError

/-- The `Location` collaborator. -/
structure LocationClient where
  GetLocationByID : Int → Location × Option GoError

/-- The `*terraform_utility.MegaportClient` passed as `m`. -/
structure MegaportClient where
  Port : PortClient
  Location : LocationClient
  DeletePorts : Bool

/-- One collaborator call, with its arguments in call-site order. -/
inductive Call where
  | GetLocationByID (locationId : Int)
  | BuySinglePort (name : String) (term speed locationId : Int) (market : String)
      (hideFromMarketplace : Bool)
  | BuyZonedSinglePort (name : String) (term speed locationId : Int) (market : String)
      (hideFromMarketplace : Bool) (zone : String)
  | BuyLAGPort (name : String) (term speed locationId : Int) (market : String)
      (lagPortCount : Int) (hideFromMarketplace : Bool)
  | BuyZonedLAGPort (name : String) (term speed locationId : Int) (market : String)
      (lagPortCount : Int) (hideFromMarketplace : Bool) (zone : String)
  | WaitForPortProvisioning (portId : String)
  | GetPortDetails (portId : String)
  | ModifyPort (portId name description : String) (marketplaceVisibility : Bool)
  | LockPort (portId : String)
  | UnlockPort (portId : String)
  | DeletePort (portId : String) (immediate : Bool)
  deriving DecidableEq, Repr

/-- An entry of the effect log: a collaborator call, or `d.SetId`. -/
inductive Event where
  | call (c : Call)
  | setId (v : String)
  deriving DecidableEq, Repr

/-- What a lifecycle function did: the error it returned (`none` is `nil`), the
resource data after the run, and the effects in the order they happened. -/
structure Outcome where
  err : Option GoError
  d : ResourceData
  trace : List Event
  deriving DecidableEq, Repr

/-- The four provisioning calls. -/
def Call.isBuy : Call → Bool
  | .BuySinglePort .. => true
  | .BuyZonedSinglePort .. => true
  | .BuyLAGPort .. => true
  | .BuyZonedLAGPort .. => true
  | _ => false

/-- Log entries that are provisioning calls. -/
def Event.isBuy : Event → Bool
  | .call c => c.isBuy
  | .setId _ => false

/-- Log entries that are `ModifyPort` calls. -/
def Event.isModifyPort : Event → Bool
  | .call (.ModifyPort ..) => true
  | _ => false

/-- Log entries that are `LockPort` or `UnlockPort` calls. -/
def Event.isLockOrUnlock : Event → Bool
  | .call (.LockPort _) => true
  | .call (.UnlockPort _) => true
  | _ => false

/-- Log entries that are `GetPortDetails` calls. -/
def Event.isGetPortDetails : Event → Bool
  | .call (.GetPortDetails _) => true
  | _ => false

/-- Log entries that are `WaitForPortProvisioning` calls. -/
def Event.isWait : Event → Bool
  | .call (.WaitForPortProvisioning _) => true
  | _ => false

/-- Log entries that are `d.SetId`. -/
def Event.isSetId : Event → Bool
  | .setId _ => true
  | _ => false

/-- The function `resourceMegaportPortRead` (lines 85 to 113).  The eighteen `d.Set`
calls write distinct keys, so they are one record update, listed in source order. -/
def resourceMegaportPortRead (d : ResourceData) (m : MegaportClient) : Outcome :=
  let port := m.Port
  let (portDetails, retrievalErr) := port.GetPortDetails d.Id
  let log := [Event.call (.GetPortDetails d.Id)]
  match retrievalErr with
  | some e => ⟨some e, d, log⟩
  | none =>
    let d := { d with fields := { d.fields with
      uid := portDetails.UID
      port_name := portDetails.Name
      type := portDetails.Type_
      provisioning_status := portDetails.ProvisioningStatus
      create_date := portDetails.CreateDate
      created_by := portDetails.CreatedBy
      port_speed := portDetails.PortSpeed
      live_date := portDetails.LiveDate
      market_code := portDetails.Market
      location_id := portDetails.LocationID
      marketplace_visibility := portDetails.MarketplaceVisibility
      company_name := portDetails.CompanyName
      term := portDetails.ContractTermMonths
      lag_primary := portDetails.LAGPrimary
      lag_id := portDetails.LAGID
      locked := portDetails.Locked
      admin_locked := portDetails.AdminLocked
      diversity_zone := portDetails.DiversityZone } }
    ⟨none, d, log⟩

/-- Lines 62 to 74 of `resourceMegaportPortCreate`: the provisioning call that is
made, paired with the `(portId, portErr)` it returns. -/
def buyPort (port : PortClient) (portName : String) (term portSpeed locationId : Int)
    (marketCode : String) (numberOfPorts : Int) (marketplaceVisibility isLag : Bool)
    (diversityZone : String) : Call × (String × Option GoError) :=
  if isLag then
    if len diversityZone > 0 then
      (.BuyZonedLAGPort portName term portSpeed locationId marketCode numberOfPorts
          (!marketplaceVisibility) diversityZone,
        port.BuyZonedLAGPort portName term portSpeed locationId marketCode numberOfPorts
          (!marketplaceVisibility) diversityZone)
    else
      (.BuyLAGPort portName term portSpeed locationId marketCode numberOfPorts
          (!marketplaceVisibility),
        port.BuyLAGPort portName term portSpeed locationId marketCode numberOfPorts
          (!marketplaceVisibility))
  else
    if len diversityZone > 0 then
      (.BuyZonedSinglePort portName term portSpeed locationId marketCode
          (!marketplaceVisibility) diversityZone,
        port.BuyZonedSinglePort portName term portSpeed locationId marketCode
          (!marketplaceVisibility) diversityZone)
    else
      (.BuySinglePort portName term portSpeed locationId marketCode (!marketplaceVisibility),
        port.BuySinglePort portName term portSpeed locationId marketCode
          (!marketplaceVisibility))

/-- The function `resourceMegaportPortCreate` (lines 39 to 83).  The value returned
by `WaitForPortProvisioning` is discarded by the source, so only the call is logged. -/
def resourceMegaportPortCreate (d : ResourceData) (m : MegaportClient) : Outcome :=
  let port := m.Port
  let location := m.Location
  let portName := d.fields.port_name
  let term := d.fields.term
  let portSpeed := d.fields.port_speed
  let locationId := d.fields.location_id
  let marketplaceVisibility := d.fields.marketplace_visibility
  let isLag := d.fields.lag
  let numberOfPorts := d.fields.lag_port_count
  let (loc, locationErr) := location.GetLocationByID locationId
  let log := [Event.call (.GetLocationByID locationId)]
  let diversityZone := d.fields.diversity_zone
  match locationErr with
  | some e => ⟨some e, d, log⟩
  | none =>
    let marketCode := loc.Market
    let (buy, portId, portErr) :=
      buyPort port portName term portSpeed locationId marketCode numberOfPorts
        marketplaceVisibility isLag diversityZone
    let log := log ++ [Event.call buy]
    match portErr with
    | some e => ⟨some e, d, log⟩
    | none =>
      let d := d.SetId portId
      let log := log ++ [Event.setId portId]
      let log := log ++ [Event.call (.WaitForPortProvisioning portId)]
      let r := resourceMegaportPortRead d m
      ⟨r.err, r.d, log ++ r.trace⟩

/-- The function `resourceMegaportPortUpdate` (lines 115 to 154).  The two message
constants `PortNotLockedError` and `PortNotUnlockedError` are declared elsewhere in
the package and are taken as parameters. -/
def resourceMegaportPortUpdate (PortNotLockedError PortNotUnlockedError : String)
    (d : ResourceData) (m : MegaportClient) : Outcome :=
  let port := m.Port
  let modifyStep : Option GoError × List Event :=
    if d.HasChange .port_name || d.HasChange .marketplace_visibility then
      let (_, nameErr) :=
        port.ModifyPort d.Id d.fields.port_name "" d.fields.marketplace_visibility
      (nameErr,
        [Event.call (.ModifyPort d.Id d.fields.port_name "" d.fields.marketplace_visibility)])
    else
      (none, [])
  match modifyStep with
  | (some nameErr, log) => ⟨some nameErr, d, log⟩
  | (none, log) =>
    let lockStep : Option GoError × List Event :=
      if d.HasChange .locked then
        if d.fields.locked then
          let (lockStatus, lockErr) := port.LockPort d.Id
          let ev := [Event.call (.LockPort d.Id)]
          match lockErr with
          | some e => (some e, ev)
          | none => if !lockStatus then (some (errors.New PortNotLockedError), ev) else (none, ev)
        else
          let (unlockStatus, unlockErr) := port.UnlockPort d.Id
          let ev := [Event.call (.UnlockPort d.Id)]
          match unlockErr with
          | some e => (some e, ev)
          | none =>
            if !unlockStatus then (some (errors.New PortNotUnlockedError), ev) else (none, ev)
      else
        (none, [])
    match lockStep with
    | (some e, ev) => ⟨some e, d, log ++ ev⟩
    | (none, ev) =>
      let r := resourceMegaportPortRead d m
      ⟨r.err, r.d, log ++ ev ++ r.trace⟩

/-- The function `resourceMegaportPortDelete` (lines 156 to 178). -/
def resourceMegaportPortDelete (d : ResourceData) (m : MegaportClient) : Outcome :=
  let port := m.Port
  if m.DeletePorts then
    let (deleteSuccess, deleteError) := port.DeletePort d.Id true
    let log := [Event.call (.DeletePort d.Id true)]
    if !deleteSuccess then
      ⟨some (errors.New ("Error deleting resource " ++ d.Id ++ ": " ++ fmtS deleteError)), d, log⟩
    else
      ⟨none, d, log⟩
  else
    let (cancelSuccess, cancelError) := port.DeletePort d.Id false
    let log := [Event.call (.DeletePort d.Id false)]
    if !cancelSuccess then
      ⟨some (errors.New ("Error cancelling resource " ++ d.Id ++ ": " ++ fmtS cancelError)), d,
        log⟩
    else
      ⟨none, d, log⟩

/-! ## Sample inputs -/

/-- A sample configuration: an unzoned single port. -/
def sampleFields : Fields :=
  { uid := "", port_name := "edge-a", type := "", provisioning_status := "", create_date := 0,
    created_by := "", port_speed := 1000, live_date := 0, market_code := "", location_id := 7,
    marketplace_visibility := true, company_name := "", term := 12, lag := false,
    lag_port_count := 0, lag_primary := false, lag_id := 0, locked := false,
    admin_locked := false, diversity_zone := "" }

/-- A sample resource with id `port-1` and no pending change. -/
def sampleData : ResourceData := { id := "port-1", prior := sampleFields, fields := sampleFields }

/-- A sample remote record. -/
def samplePort : Port :=
  { UID := "port-1", Name := "edge-remote", Type_ := "MEGAPORT", ProvisioningStatus := "LIVE",
    CreateDate := 1600000000, CreatedBy := "alice", PortSpeed := 10000, LiveDate := 1600000500,
    Market := "AU", LocationID := 3, MarketplaceVisibility := false, CompanyName := "Acme",
    ContractTermMonths := 24, LAGPrimary := true, LAGID := 4, Locked := true,
    AdminLocked := true, DiversityZone := "red" }

/-- A port collaborator whose every operation succeeds; purchases return the id
`port-9`. -/
def okPort : PortClient :=
  { BuySinglePort := fun _ _ _ _ _ _ => ("port-9", none)
    BuyZonedSinglePort := fun _ _ _ _ _ _ _ => ("port-9", none)
    BuyLAGPort := fun _ _ _ _ _ _ _ => ("port-9", none)
    BuyZonedLAGPort := fun _ _ _ _ _ _ _ _ => ("port-9", none)
    GetPortDetails := fun _ => (samplePort, none)
    ModifyPort := fun _ _ _ _ => (true, none)
    LockPort := fun _ => (true, none)
    UnlockPort := fun _ => (true, none)
    DeletePort := fun _ _ => (true, none) }

/-- A location collaborator that resolves every id to the market `AU`. -/
def okLocation : LocationClient := { GetLocationByID := fun _ => (⟨"AU"⟩, none) }

/-- A client whose every operation succeeds, configured to cancel on delete. -/
def okClient : MegaportClient := { Port := okPort, Location := okLocation, DeletePorts := false }

/-- A client whose `DeletePort` answers `(false, nil)`. -/
def refusingDeleteClient : MegaportClient :=
  { okClient with Port := { okPort with DeletePort := fun _ _ => (false, none) } }

/-- A client whose `DeletePort` answers `true` together with an error. -/
def trueWithErrorDeleteClient : MegaportClient :=
  { okClient with
    Port := { okPort with DeletePort := fun _ _ => (true, some (errors.New "timeout")) }
    DeletePorts := true }

/-- A client whose `GetPortDetails` fails. -/
def failingReadClient : MegaportClient :=
  { okClient with
    Port := { okPort with GetPortDetails := fun _ => (samplePort, some (errors.New "not found")) } }

/-- The sample resource with a pending rename and a pending lock. -/
def renameAndLockData : ResourceData :=
  { sampleData with fields := { sampleFields with port_name := "edge-b", locked := true } }

/-- The sample resource with only a pending lock. -/
def lockOnlyData : ResourceData :=
  { sampleData with fields := { sampleFields with locked := true } }

/-- The sample resource, recorded as locked, with only a pending unlock. -/
def unlockOnlyData : ResourceData :=
  { sampleData with prior := { sampleFields with locked := true } }

/-- A client whose `ModifyPort` fails. -/
def failingModifyClient : MegaportClient :=
  { okClient with
    Port := { okPort with ModifyPort := fun _ _ _ _ => (false, some (errors.New "rejected")) } }

/-- A client whose `LockPort` and `UnlockPort` answer `(false, nil)`. -/
def refusingLockClient : MegaportClient :=
  { okClient with
    Port := { okPort with LockPort := fun _ => (false, none), UnlockPort := fun _ => (false, none) } }

/-- The sample resource declared as a two-member LAG in diversity zone `blue`. -/
def zonedLagData : ResourceData :=
  { sampleData with
    fields := { sampleFields with lag := true, lag_port_count := 2, diversity_zone := "blue" } }

/-- A client whose location lookup fails. -/
def failingLocationClient : MegaportClient :=
  { okClient with
    Location := { GetLocationByID := fun _ => (⟨""⟩, some (errors.New "unknown location")) } }

/-- A client whose `BuySinglePort` fails. -/
def failingBuyClient : MegaportClient :=
  { okClient with
    Port := { okPort with
      BuySinglePort := fun _ _ _ _ _ _ => ("", some (errors.New "insufficient credit")) } }

/-- A client whose `BuyZonedLAGPort` fails. -/
def failingZonedLagBuyClient : MegaportClient :=
  { okClient with
    Port := { okPort with
      BuyZonedLAGPort := fun _ _ _ _ _ _ _ _ => ("", some (errors.New "no capacity")) } }

/-! ## Delete -/

/-- C5. For every resource id and either value of `DeletePorts`, the effect log of
`resourceMegaportPortDelete` is exactly one `DeletePort` call, made with the
resource's own id and with `immediate` equal to the flag; no other call is made and
the resource data are left as they were. -/
theorem delete_issues_exactly_one_DeletePort (d : ResourceData) (m : MegaportClient) :
    (resourceMegaportPortDelete d m).trace = [Event.call (.DeletePort d.id m.DeletePorts)]
      ∧ (m.DeletePorts = true →
          (resourceMegaportPortDelete d m).trace = [Event.call (.DeletePort d.id true)])
      ∧ (m.DeletePorts = false →
          (resourceMegaportPortDelete d m).trace = [Event.call (.DeletePort d.id false)])
      ∧ (resourceMegaportPortDelete d m).d = d := by
  unfold resourceMegaportPortDelete ResourceData.Id
  cases hflag : m.DeletePorts <;> simp <;> split <;> simp

/-- C6. For either value of `DeletePorts`, when `DeletePort` answers `success = false`
the function returns a non-nil error, also when the error that came with it is nil.
The text names the resource id and the cause: `Error deleting resource <id>: <cause>`
on the hard-delete path and `Error cancelling resource <id>: <cause>` on the cancel
path, with the cause rendered by `%s`. -/
theorem delete_false_status_returns_error (d : ResourceData) (m : MegaportClient)
    (hfalse : (m.Port.DeletePort d.id m.DeletePorts).1 = false) :
    (resourceMegaportPortDelete d m).err ≠ none
      ∧ (m.DeletePorts = true →
          (resourceMegaportPortDelete d m).err =
            some (errors.New ("Error deleting resource " ++ d.id ++ ": "
              ++ fmtS (m.Port.DeletePort d.id true).2)))
      ∧ (m.DeletePorts = false →
          (resourceMegaportPortDelete d m).err =
            some (errors.New ("Error cancelling resource " ++ d.id ++ ": "
              ++ fmtS (m.Port.DeletePort d.id false).2))) := by
  unfold resourceMegaportPortDelete ResourceData.Id
  cases hflag : m.DeletePorts <;> rw [hflag] at hfalse <;> simp [hfalse]

/-- C6, at a concrete input: cancelling `port-1` when `DeletePort` answers
`(false, nil)`. -/
theorem delete_false_status_returns_error_witness :
    (refusingDeleteClient.Port.DeletePort sampleData.id refusingDeleteClient.DeletePorts).1 = false
      ∧ (resourceMegaportPortDelete sampleData refusingDeleteClient).err =
          some (errors.New "Error cancelling resource port-1: %!s(<nil>)") :=
  ⟨rfl, by
    have h := (delete_false_status_returns_error sampleData refusingDeleteClient rfl).2.2 rfl
    rw [h]; decide⟩

/-- C7 as stated fails: hard-deleting `port-1` when `DeletePort` answers `true`
together with a non-nil error returns nil. -/
theorem delete_error_with_true_status_returns_nil :
    (trueWithErrorDeleteClient.Port.DeletePort sampleData.id true).2 ≠ none
      ∧ trueWithErrorDeleteClient.DeletePorts = true
      ∧ (resourceMegaportPortDelete sampleData trueWithErrorDeleteClient).err = none := by
  decide

/-- C7, amended. For either value of `DeletePorts`, the function returns nil exactly
when `DeletePort` answered `success = true`, and a non-nil error exactly when it
answered `success = false`, whatever error value came with the boolean; so a failing
call that answers `false` with its error yields a non-nil error. -/
theorem delete_returns_nil_iff_status_true (d : ResourceData) (m : MegaportClient) :
    ((resourceMegaportPortDelete d m).err = none ↔
        (m.Port.DeletePort d.id m.DeletePorts).1 = true)
      ∧ ((resourceMegaportPortDelete d m).err ≠ none ↔
        (m.Port.DeletePort d.id m.DeletePorts).1 = false) := by
  unfold resourceMegaportPortDelete ResourceData.Id
  cases hflag : m.DeletePorts
  · rcases hr : m.Port.DeletePort d.id false with ⟨s, e⟩
    cases s <;> simp [hr]
  · rcases hr : m.Port.DeletePort d.id true with ⟨s, e⟩
    cases s <;> simp [hr]

/-! ## Read -/

/-- The effect log of `resourceMegaportPortRead` is one `GetPortDetails` call for the
resource id. -/
theorem read_trace (d : ResourceData) (m : MegaportClient) :
    (resourceMegaportPortRead d m).trace = [Event.call (.GetPortDetails d.id)] := by
  unfold resourceMegaportPortRead ResourceData.Id
  dsimp only
  split <;> rfl

/-- A failing `GetPortDetails` makes `resourceMegaportPortRead` return that error and
leave the resource data as they were. -/
theorem read_of_error (d : ResourceData) (m : MegaportClient) (e : GoError)
    (herr : (m.Port.GetPortDetails d.id).2 = some e) :
    resourceMegaportPortRead d m = ⟨some e, d, [Event.call (.GetPortDetails d.id)]⟩ := by
  unfold resourceMegaportPortRead ResourceData.Id
  dsimp only
  rw [herr]

/-- A successful `GetPortDetails` makes `resourceMegaportPortRead` return nil, keep the
id, the recorded prior values, `lag` and `lag_port_count`, and store the record. -/
theorem read_of_success (d : ResourceData) (m : MegaportClient)
    (hok : (m.Port.GetPortDetails d.id).2 = none) :
    resourceMegaportPortRead d m =
      ⟨none,
        { id := d.id, prior := d.prior,
          fields :=
            { uid := (m.Port.GetPortDetails d.id).1.UID
              port_name := (m.Port.GetPortDetails d.id).1.Name
              type := (m.Port.GetPortDetails d.id).1.Type_
              provisioning_status := (m.Port.GetPortDetails d.id).1.ProvisioningStatus
              create_date := (m.Port.GetPortDetails d.id).1.CreateDate
              created_by := (m.Port.GetPortDetails d.id).1.CreatedBy
              port_speed := (m.Port.GetPortDetails d.id).1.PortSpeed
              live_date := (m.Port.GetPortDetails d.id).1.LiveDate
              market_code := (m.Port.GetPortDetails d.id).1.Market
              location_id := (m.Port.GetPortDetails d.id).1.LocationID
              marketplace_visibility := (m.Port.GetPortDetails d.id).1.MarketplaceVisibility
              company_name := (m.Port.GetPortDetails d.id).1.CompanyName
              term := (m.Port.GetPortDetails d.id).1.ContractTermMonths
              lag := d.fields.lag
              lag_port_count := d.fields.lag_port_count
              lag_primary := (m.Port.GetPortDetails d.id).1.LAGPrimary
              lag_id := (m.Port.GetPortDetails d.id).1.LAGID
              locked := (m.Port.GetPortDetails d.id).1.Locked
              admin_locked := (m.Port.GetPortDetails d.id).1.AdminLocked
              diversity_zone := (m.Port.GetPortDetails d.id).1.DiversityZone } },
        [Event.call (.GetPortDetails d.id)]⟩ := by
  unfold resourceMegaportPortRead ResourceData.Id
  dsimp only
  rw [hok]

/-- C10. When `GetPortDetails` succeeds, Read returns nil, leaves the resource id
unchanged and sets every field that mirrors the remote record (uid, port_name, type,
provisioning_status, create_date, created_by, port_speed, live_date, market_code,
location_id, marketplace_visibility, company_name, term, lag_primary, lag_id, locked,
admin_locked, diversity_zone) to the value in the fetched record, whatever its prior
local value.  Read is idempotent: a second Read against the same record gives the
same outcome as the first.  Two starting states with the same id have the same value
in every mirrored field after Read: their fields can differ only in the two
configuration inputs `lag` and `lag_port_count`, which have no counterpart in the
record and are never written.  When `GetPortDetails` fails, Read returns that error
and changes nothing. -/
theorem read_replaces_tracked_fields (d : ResourceData) (m : MegaportClient) :
    ((m.Port.GetPortDetails d.id).2 = none →
        (resourceMegaportPortRead d m).err = none
        ∧ (resourceMegaportPortRead d m).d.id = d.id
        ∧ (resourceMegaportPortRead d m).d.fields.uid = (m.Port.GetPortDetails d.id).1.UID
        ∧ (resourceMegaportPortRead d m).d.fields.port_name = (m.Port.GetPortDetails d.id).1.Name
        ∧ (resourceMegaportPortRead d m).d.fields.type = (m.Port.GetPortDetails d.id).1.Type_
        ∧ (resourceMegaportPortRead d m).d.fields.provisioning_status = (m.Port.GetPortDetails d.id).1.ProvisioningStatus
        ∧ (resourceMegaportPortRead d m).d.fields.create_date = (m.Port.GetPortDetails d.id).1.CreateDate
        ∧ (resourceMegaportPortRead d m).d.fields.created_by = (m.Port.GetPortDetails d.id).1.CreatedBy
        ∧ (resourceMegaportPortRead d m).d.fields.port_speed = (m.Port.GetPortDetails d.id).1.PortSpeed
        ∧ (resourceMegaportPortRead d m).d.fields.live_date = (m.Port.GetPortDetails d.id).1.LiveDate
        ∧ (resourceMegaportPortRead d m).d.fields.market_code = (m.Port.GetPortDetails d.id).1.Market
        ∧ (resourceMegaportPortRead d m).d.fields.location_id = (m.Port.GetPortDetails d.id).1.LocationID
        ∧ (resourceMegaportPortRead d m).d.fields.marketplace_visibility = (m.Port.GetPortDetails d.id).1.MarketplaceVisibility
        ∧ (resourceMegaportPortRead d m).d.fields.company_name = (m.Port.GetPortDetails d.id).1.CompanyName
        ∧ (resourceMegaportPortRead d m).d.fields.term = (m.Port.GetPortDetails d.id).1.ContractTermMonths
        ∧ (resourceMegaportPortRead d m).d.fields.lag_primary = (m.Port.GetPortDetails d.id).1.LAGPrimary
        ∧ (resourceMegaportPortRead d m).d.fields.lag_id = (m.Port.GetPortDetails d.id).1.LAGID
        ∧ (resourceMegaportPortRead d m).d.fields.locked = (m.Port.GetPortDetails d.id).1.Locked
        ∧ (resourceMegaportPortRead d m).d.fields.admin_locked = (m.Port.GetPortDetails d.id).1.AdminLocked
        ∧ (resourceMegaportPortRead d m).d.fields.diversity_zone = (m.Port.GetPortDetails d.id).1.DiversityZone
        ∧ resourceMegaportPortRead (resourceMegaportPortRead d m).d m = resourceMegaportPortRead d m
        ∧ ∀ d2 : ResourceData, d2.id = d.id →
            (resourceMegaportPortRead d2 m).d.fields =
              { (resourceMegaportPortRead d m).d.fields with
                lag := d2.fields.lag, lag_port_count := d2.fields.lag_port_count })
      ∧ (∀ e : GoError, (m.Port.GetPortDetails d.id).2 = some e →
          (resourceMegaportPortRead d m).err = some e ∧ (resourceMegaportPortRead d m).d = d) := by
  constructor
  · intro hok
    have h1 := read_of_success d m hok
    have h2 := read_of_success (resourceMegaportPortRead d m).d m (by rw [h1]; exact hok)
    refine ⟨by rw [h1], by rw [h1], ?_⟩
    refine ⟨by rw [h1], by rw [h1], by rw [h1], by rw [h1], by rw [h1], by rw [h1], ?_⟩
    refine ⟨by rw [h1], by rw [h1], by rw [h1], by rw [h1], by rw [h1], by rw [h1], ?_⟩
    refine ⟨by rw [h1], by rw [h1], by rw [h1], by rw [h1], by rw [h1], by rw [h1], ?_⟩
    refine ⟨?_, ?_⟩
    · rw [h2, h1]
    · intro d2 hid
      have h3 := read_of_success d2 m (by rw [hid]; exact hok)
      rw [h3, h1, hid]
  · intro e herr
    rw [read_of_error d m e herr]
    exact ⟨rfl, rfl⟩

/-- C10, at concrete inputs: a successful Read of `port-1` stores the record; started
from two different local states with that id it ends with the same fields; a failing
Read of `port-1` returns the error and changes nothing. -/
theorem read_replaces_tracked_fields_witness :
    (okClient.Port.GetPortDetails sampleData.id).2 = none
      ∧ (resourceMegaportPortRead sampleData okClient).d.fields.port_name = samplePort.Name
      ∧ (renameAndLockData.id = sampleData.id ∧ renameAndLockData ≠ sampleData)
      ∧ (resourceMegaportPortRead renameAndLockData okClient).d.fields =
          (resourceMegaportPortRead sampleData okClient).d.fields
      ∧ (failingReadClient.Port.GetPortDetails sampleData.id).2 = some (errors.New "not found")
      ∧ (resourceMegaportPortRead sampleData failingReadClient).err =
          some (errors.New "not found")
      ∧ (resourceMegaportPortRead sampleData failingReadClient).d = sampleData :=
  ⟨rfl,
    ((read_replaces_tracked_fields sampleData okClient).1 rfl).2.2.2.1,
    ⟨rfl, by decide⟩,
    ((read_replaces_tracked_fields sampleData okClient).1
      rfl).2.2.2.2.2.2.2.2.2.2.2.2.2.2.2.2.2.2.2.2.2 renameAndLockData rfl,
    rfl,
    ((read_replaces_tracked_fields sampleData failingReadClient).2 _ rfl).1,
    ((read_replaces_tracked_fields sampleData failingReadClient).2 _ rfl).2⟩

/-! ## Update -/

/-- C2 as stated fails: with a pending rename and a pending lock, a failing
`ModifyPort` ends the run, so `locked` changed and yet neither `LockPort` nor
`UnlockPort` is called. -/
theorem update_modify_failure_skips_lock :
    renameAndLockData.HasChange .locked = true
      ∧ (resourceMegaportPortUpdate "not locked" "not unlocked" renameAndLockData
          failingModifyClient).trace =
          [Event.call (.ModifyPort "port-1" "edge-b" "" true)]
      ∧ (resourceMegaportPortUpdate "not locked" "not unlocked" renameAndLockData
          failingModifyClient).trace.filter Event.isLockOrUnlock = [] := by
  decide

/-- C2, amended. Whatever the collaborator calls return, Update issues a `ModifyPort`
call if and only if port_name or marketplace_visibility changed, and then exactly
one, carrying the id, the new name, an empty description and the new visibility.  It
issues a `LockPort` or `UnlockPort` call if and only if locked changed and the run
was not ended by a failing `ModifyPort`, and then exactly one: `LockPort` when the new
value is true, `UnlockPort` when it is false.  A request that changes only locked
issues no `ModifyPort` call, and one that leaves locked unchanged issues no lock or
unlock call. -/
theorem update_issues_calls_for_changes (PortNotLockedError PortNotUnlockedError : String)
    (d : ResourceData) (m : MegaportClient) :
    (resourceMegaportPortUpdate PortNotLockedError PortNotUnlockedError d m).trace.filter
        Event.isModifyPort =
        (if d.HasChange .port_name || d.HasChange .marketplace_visibility then
          [Event.call (.ModifyPort d.id d.fields.port_name "" d.fields.marketplace_visibility)]
        else [])
      ∧ (resourceMegaportPortUpdate PortNotLockedError PortNotUnlockedError d m).trace.filter
        Event.isLockOrUnlock =
        (if d.HasChange .locked
            && !((d.HasChange .port_name || d.HasChange .marketplace_visibility)
              && (m.Port.ModifyPort d.id d.fields.port_name ""
                    d.fields.marketplace_visibility).2.isSome) then
          [Event.call (if d.fields.locked then .LockPort d.id else .UnlockPort d.id)]
        else [])
      ∧ (d.HasChange .port_name = false → d.HasChange .marketplace_visibility = false →
          (resourceMegaportPortUpdate PortNotLockedError PortNotUnlockedError d m).trace.filter
            Event.isModifyPort = [])
      ∧ (d.HasChange .locked = false →
          (resourceMegaportPortUpdate PortNotLockedError PortNotUnlockedError d m).trace.filter
            Event.isLockOrUnlock = []) := by
  rcases hM : m.Port.ModifyPort d.id d.fields.port_name "" d.fields.marketplace_visibility
    with ⟨mb, me⟩
  rcases hL : m.Port.LockPort d.id with ⟨ls, le⟩
  rcases hU : m.Port.UnlockPort d.id with ⟨us, ue⟩
  have hR := read_trace d m
  unfold resourceMegaportPortUpdate ResourceData.Id
  cases hN : d.HasChange .port_name <;> cases hV : d.HasChange .marketplace_visibility <;>
    cases hC : d.HasChange .locked <;> cases hl : d.fields.locked <;>
    cases me <;> cases le <;> cases ue <;> cases ls <;> cases us <;>
    simp [hM, hL, hU, hR, Event.isModifyPort, Event.isLockOrUnlock]

/-- C2 amended, at concrete inputs: a lock-only request issues no `ModifyPort` call
and one `LockPort` call; a request that leaves locked unchanged issues no lock or
unlock call. -/
theorem update_issues_calls_for_changes_witness :
    (lockOnlyData.HasChange .port_name = false
        ∧ lockOnlyData.HasChange .marketplace_visibility = false)
      ∧ (resourceMegaportPortUpdate "not locked" "not unlocked" lockOnlyData
          okClient).trace.filter Event.isModifyPort = []
      ∧ sampleData.HasChange .locked = false
      ∧ (resourceMegaportPortUpdate "not locked" "not unlocked" sampleData
          okClient).trace.filter Event.isLockOrUnlock = [] :=
  ⟨⟨rfl, rfl⟩,
    (update_issues_calls_for_changes "not locked" "not unlocked" lockOnlyData okClient).2.2.1
      rfl rfl,
    rfl,
    (update_issues_calls_for_changes "not locked" "not unlocked" sampleData okClient).2.2.2
      rfl⟩

/-- C3 as stated fails: with no pending change the effect log of Update is not empty;
it holds the `GetPortDetails` call of the trailing Read. -/
theorem update_noop_still_reads :
    sampleData.HasChange .port_name = false
      ∧ sampleData.HasChange .marketplace_visibility = false
      ∧ sampleData.HasChange .locked = false
      ∧ (resourceMegaportPortUpdate "not locked" "not unlocked" sampleData okClient).trace =
          [Event.call (.GetPortDetails "port-1")]
      ∧ (resourceMegaportPortUpdate "not locked" "not unlocked" sampleData okClient).trace ≠
          [] := by
  decide

/-- C3, amended. When none of port_name, marketplace_visibility and locked has changed,
Update issues no `ModifyPort`, `LockPort` or `UnlockPort` call: its only collaborator
call is the single `GetPortDetails` for the resource id made by the trailing Read,
and its outcome is that of Read. -/
theorem update_noop_only_reads (PortNotLockedError PortNotUnlockedError : String)
    (d : ResourceData) (m : MegaportClient)
    (hname : d.HasChange .port_name = false)
    (hvis : d.HasChange .marketplace_visibility = false)
    (hlock : d.HasChange .locked = false) :
    (resourceMegaportPortUpdate PortNotLockedError PortNotUnlockedError d m).trace =
        [Event.call (.GetPortDetails d.id)]
      ∧ (resourceMegaportPortUpdate PortNotLockedError PortNotUnlockedError d m) =
        resourceMegaportPortRead d m := by
  have hupd : resourceMegaportPortUpdate PortNotLockedError PortNotUnlockedError d m =
      resourceMegaportPortRead d m := by
    unfold resourceMegaportPortUpdate ResourceData.Id
    simp [hname, hvis, hlock]
  rw [hupd]
  exact ⟨read_trace d m, rfl⟩

/-- C3 amended, at a concrete input: Update of `port-1` with no pending change. -/
theorem update_noop_only_reads_witness :
    (sampleData.HasChange .port_name = false
        ∧ sampleData.HasChange .marketplace_visibility = false
        ∧ sampleData.HasChange .locked = false)
      ∧ (resourceMegaportPortUpdate "not locked" "not unlocked" sampleData okClient).trace =
          [Event.call (.GetPortDetails sampleData.id)] :=
  ⟨⟨rfl, rfl, rfl⟩,
    (update_noop_only_reads "not locked" "not unlocked" sampleData okClient rfl rfl rfl).1⟩

/-- C4. When locked changed, the new value is true, the `LockPort` call is issued and
it answers `(false, nil)`, Update returns the error with text `PortNotLockedError`;
when the new value is false, the `UnlockPort` call is issued and it answers
`(false, nil)`, Update returns the error with text `PortNotUnlockedError`.  In both
cases the result is not nil, the resource data are left as they were and no
`GetPortDetails` call is made: the trailing Read is not performed. -/
theorem update_false_lock_status_is_named_error
    (PortNotLockedError PortNotUnlockedError : String)
    (d : ResourceData) (m : MegaportClient) (hchg : d.HasChange .locked = true) :
    (d.fields.locked = true →
        Event.call (.LockPort d.id) ∈
          (resourceMegaportPortUpdate PortNotLockedError PortNotUnlockedError d m).trace →
        m.Port.LockPort d.id = (false, none) →
        (resourceMegaportPortUpdate PortNotLockedError PortNotUnlockedError d m).err =
            some (errors.New PortNotLockedError)
          ∧ (resourceMegaportPortUpdate PortNotLockedError PortNotUnlockedError d m).err ≠ none
          ∧ (resourceMegaportPortUpdate PortNotLockedError PortNotUnlockedError d m).d = d
          ∧ (resourceMegaportPortUpdate PortNotLockedError PortNotUnlockedError d m).trace.filter
              Event.isGetPortDetails = [])
      ∧ (d.fields.locked = false →
        Event.call (.UnlockPort d.id) ∈
          (resourceMegaportPortUpdate PortNotLockedError PortNotUnlockedError d m).trace →
        m.Port.UnlockPort d.id = (false, none) →
        (resourceMegaportPortUpdate PortNotLockedError PortNotUnlockedError d m).err =
            some (errors.New PortNotUnlockedError)
          ∧ (resourceMegaportPortUpdate PortNotLockedError PortNotUnlockedError d m).err ≠ none
          ∧ (resourceMegaportPortUpdate PortNotLockedError PortNotUnlockedError d m).d = d
          ∧ (resourceMegaportPortUpdate PortNotLockedError PortNotUnlockedError d m).trace.filter
              Event.isGetPortDetails = []) := by
  rcases hM : m.Port.ModifyPort d.id d.fields.port_name "" d.fields.marketplace_visibility
    with ⟨mb, me⟩
  have hR := read_trace d m
  constructor
  · intro hl hcall hret
    revert hcall
    unfold resourceMegaportPortUpdate ResourceData.Id
    cases hN : d.HasChange .port_name <;> cases hV : d.HasChange .marketplace_visibility <;>
      cases me <;> simp [hM, hret, hR, hchg, hl, Event.isGetPortDetails]
  · intro hl hcall hret
    revert hcall
    unfold resourceMegaportPortUpdate ResourceData.Id
    cases hN : d.HasChange .port_name <;> cases hV : d.HasChange .marketplace_visibility <;>
      cases me <;> simp [hM, hret, hR, hchg, hl, Event.isGetPortDetails]

/-- C4, at concrete inputs: a lock-only request answered `(false, nil)` by `LockPort`,
and an unlock-only request answered `(false, nil)` by `UnlockPort`. -/
theorem update_false_lock_status_is_named_error_witness :
    (lockOnlyData.HasChange .locked = true ∧ lockOnlyData.fields.locked = true
        ∧ refusingLockClient.Port.LockPort lockOnlyData.id = (false, none))
      ∧ (resourceMegaportPortUpdate "not locked" "not unlocked" lockOnlyData
          refusingLockClient).err = some (errors.New "not locked")
      ∧ (unlockOnlyData.HasChange .locked = true ∧ unlockOnlyData.fields.locked = false
        ∧ refusingLockClient.Port.UnlockPort unlockOnlyData.id = (false, none))
      ∧ (resourceMegaportPortUpdate "not locked" "not unlocked" unlockOnlyData
          refusingLockClient).err = some (errors.New "not unlocked") :=
  ⟨⟨rfl, rfl, rfl⟩,
    ((update_false_lock_status_is_named_error "not locked" "not unlocked" lockOnlyData
      refusingLockClient rfl).1 rfl (by decide) rfl).1,
    ⟨rfl, rfl, rfl⟩,
    ((update_false_lock_status_is_named_error "not locked" "not unlocked" unlockOnlyData
      refusingLockClient rfl).2 rfl (by decide) rfl).1⟩

/-! ## Create -/

/-- A string has positive length exactly when it is not the empty string. -/
theorem len_pos_iff (s : String) : 0 < len s ↔ s ≠ "" := by
  rcases s with ⟨cs⟩
  cases cs with
  | nil => simp [len, String.utf8ByteSize, String.utf8ByteSize.go]
  | cons c cs =>
    have hc := Char.utf8Size_pos c
    have hne : String.mk (c :: cs) ≠ "" := by
      intro h
      have := congrArg String.data h
      simp at this
    simp [len, String.utf8ByteSize, String.utf8ByteSize.go, hne]
    omega

/-- Read keeps the resource id. -/
theorem read_id (d : ResourceData) (m : MegaportClient) :
    (resourceMegaportPortRead d m).d.id = d.id := by
  unfold resourceMegaportPortRead ResourceData.Id
  dsimp only
  split <;> rfl

/-- The call selected by `buyPort` is always one of the four provisioning calls. -/
theorem buyPort_isBuy (port : PortClient) (portName : String)
    (term portSpeed locationId : Int) (marketCode : String) (numberOfPorts : Int)
    (marketplaceVisibility isLag : Bool) (diversityZone : String) :
    (buyPort port portName term portSpeed locationId marketCode numberOfPorts
      marketplaceVisibility isLag diversityZone).1.isBuy = true := by
  unfold buyPort
  split <;> split <;> rfl

/-- After a successful location lookup and a successful provisioning call, the effects
of Create are the lookup, the purchase, `d.SetId`, the wait and the read, in this
order, all three with the identifier the purchase returned. -/
theorem create_of_buy_success (d : ResourceData) (m : MegaportClient)
    (hloc : (m.Location.GetLocationByID d.fields.location_id).2 = none)
    (hbuy : (buyPort m.Port d.fields.port_name d.fields.term d.fields.port_speed
        d.fields.location_id (m.Location.GetLocationByID d.fields.location_id).1.Market
        d.fields.lag_port_count d.fields.marketplace_visibility d.fields.lag
        d.fields.diversity_zone).2.2 = none) :
    (resourceMegaportPortCreate d m).trace =
        [Event.call (.GetLocationByID d.fields.location_id),
          Event.call (buyPort m.Port d.fields.port_name d.fields.term d.fields.port_speed
        d.fields.location_id (m.Location.GetLocationByID d.fields.location_id).1.Market
        d.fields.lag_port_count d.fields.marketplace_visibility d.fields.lag
        d.fields.diversity_zone).1,
          Event.setId (buyPort m.Port d.fields.port_name d.fields.term d.fields.port_speed
        d.fields.location_id (m.Location.GetLocationByID d.fields.location_id).1.Market
        d.fields.lag_port_count d.fields.marketplace_visibility d.fields.lag
        d.fields.diversity_zone).2.1,
          Event.call (.WaitForPortProvisioning (buyPort m.Port d.fields.port_name d.fields.term d.fields.port_speed
        d.fields.location_id (m.Location.GetLocationByID d.fields.location_id).1.Market
        d.fields.lag_port_count d.fields.marketplace_visibility d.fields.lag
        d.fields.diversity_zone).2.1),
          Event.call (.GetPortDetails (buyPort m.Port d.fields.port_name d.fields.term d.fields.port_speed
        d.fields.location_id (m.Location.GetLocationByID d.fields.location_id).1.Market
        d.fields.lag_port_count d.fields.marketplace_visibility d.fields.lag
        d.fields.diversity_zone).2.1)]
      ∧ (resourceMegaportPortCreate d m).d.id = (buyPort m.Port d.fields.port_name d.fields.term d.fields.port_speed
        d.fields.location_id (m.Location.GetLocationByID d.fields.location_id).1.Market
        d.fields.lag_port_count d.fields.marketplace_visibility d.fields.lag
        d.fields.diversity_zone).2.1 := by
  unfold resourceMegaportPortCreate
  dsimp only
  rw [hloc]
  dsimp only
  rw [hbuy]
  dsimp only
  rw [read_trace, read_id]
  exact ⟨rfl, rfl⟩

/-- After a successful location lookup and a failing provisioning call, Create returns
the error of that call and stops. -/
theorem create_of_buy_error (d : ResourceData) (m : MegaportClient) (e : GoError)
    (hloc : (m.Location.GetLocationByID d.fields.location_id).2 = none)
    (hbuy : (buyPort m.Port d.fields.port_name d.fields.term d.fields.port_speed
        d.fields.location_id (m.Location.GetLocationByID d.fields.location_id).1.Market
        d.fields.lag_port_count d.fields.marketplace_visibility d.fields.lag
        d.fields.diversity_zone).2.2 = some e) :
    (resourceMegaportPortCreate d m) =
      ⟨some e, d,
        [Event.call (.GetLocationByID d.fields.location_id),
          Event.call (buyPort m.Port d.fields.port_name d.fields.term d.fields.port_speed
        d.fields.location_id (m.Location.GetLocationByID d.fields.location_id).1.Market
        d.fields.lag_port_count d.fields.marketplace_visibility d.fields.lag
        d.fields.diversity_zone).1]⟩ := by
  unfold resourceMegaportPortCreate
  dsimp only
  rw [hloc]
  dsimp only
  rw [hbuy]
  rfl

/-- After a successful location lookup, the provisioning calls in the effect log of
Create are exactly the one call selected by `buyPort`. -/
theorem create_buy_calls (d : ResourceData) (m : MegaportClient)
    (hloc : (m.Location.GetLocationByID d.fields.location_id).2 = none) :
    (resourceMegaportPortCreate d m).trace.filter Event.isBuy =
      [Event.call (buyPort m.Port d.fields.port_name d.fields.term d.fields.port_speed
        d.fields.location_id (m.Location.GetLocationByID d.fields.location_id).1.Market
        d.fields.lag_port_count d.fields.marketplace_visibility d.fields.lag
        d.fields.diversity_zone).1] := by
  have hb := buyPort_isBuy m.Port d.fields.port_name d.fields.term d.fields.port_speed
    d.fields.location_id (m.Location.GetLocationByID d.fields.location_id).1.Market
    d.fields.lag_port_count d.fields.marketplace_visibility d.fields.lag d.fields.diversity_zone
  cases hbuy : (buyPort m.Port d.fields.port_name d.fields.term d.fields.port_speed
        d.fields.location_id (m.Location.GetLocationByID d.fields.location_id).1.Market
        d.fields.lag_port_count d.fields.marketplace_visibility d.fields.lag
        d.fields.diversity_zone).2.2 with
  | none =>
    rw [(create_of_buy_success d m hloc hbuy).1]
    simp [List.filter, Event.isBuy, hb]
    rfl
  | some e =>
    rw [create_of_buy_error d m e hloc hbuy]
    simp [List.filter, Event.isBuy, hb]
    rfl

/-- C1. For every configuration whose location lookup succeeds, the effect log of
Create holds exactly one provisioning call, the variant selected by `lag` and by
whether `diversity_zone` is empty; it carries port_name, term, port_speed,
location_id, the market code of the resolved location and the negated
marketplace_visibility, with lag_port_count for the LAG variants and the zone
for the zoned variants. -/
theorem create_issues_matching_variant (d : ResourceData) (m : MegaportClient)
    (hloc : (m.Location.GetLocationByID d.fields.location_id).2 = none) :
    (d.fields.lag = false → d.fields.diversity_zone = "" →
        (resourceMegaportPortCreate d m).trace.filter Event.isBuy =
          [Event.call (.BuySinglePort d.fields.port_name d.fields.term d.fields.port_speed
            d.fields.location_id (m.Location.GetLocationByID d.fields.location_id).1.Market
            (!d.fields.marketplace_visibility))])
      ∧ (d.fields.lag = false → d.fields.diversity_zone ≠ "" →
        (resourceMegaportPortCreate d m).trace.filter Event.isBuy =
          [Event.call (.BuyZonedSinglePort d.fields.port_name d.fields.term d.fields.port_speed
            d.fields.location_id (m.Location.GetLocationByID d.fields.location_id).1.Market
            (!d.fields.marketplace_visibility) d.fields.diversity_zone)])
      ∧ (d.fields.lag = true → d.fields.diversity_zone = "" →
        (resourceMegaportPortCreate d m).trace.filter Event.isBuy =
          [Event.call (.BuyLAGPort d.fields.port_name d.fields.term d.fields.port_speed
            d.fields.location_id (m.Location.GetLocationByID d.fields.location_id).1.Market
            d.fields.lag_port_count (!d.fields.marketplace_visibility))])
      ∧ (d.fields.lag = true → d.fields.diversity_zone ≠ "" →
        (resourceMegaportPortCreate d m).trace.filter Event.isBuy =
          [Event.call (.BuyZonedLAGPort d.fields.port_name d.fields.term d.fields.port_speed
            d.fields.location_id (m.Location.GetLocationByID d.fields.location_id).1.Market
            d.fields.lag_port_count (!d.fields.marketplace_visibility)
            d.fields.diversity_zone)]) := by
  have hcalls := create_buy_calls d m hloc
  refine ⟨?_, ?_, ?_, ?_⟩
  · intro hlag hzone
    have hz : ¬ (len d.fields.diversity_zone > 0) := by
      rw [gt_iff_lt, len_pos_iff]; simpa using hzone
    rw [hcalls]; simp [buyPort, hlag, hz]
  · intro hlag hzone
    have hz : len d.fields.diversity_zone > 0 := (len_pos_iff _).2 hzone
    rw [hcalls]; simp [buyPort, hlag, hz]
  · intro hlag hzone
    have hz : ¬ (len d.fields.diversity_zone > 0) := by
      rw [gt_iff_lt, len_pos_iff]; simpa using hzone
    rw [hcalls]; simp [buyPort, hlag, hz]
  · intro hlag hzone
    have hz : len d.fields.diversity_zone > 0 := (len_pos_iff _).2 hzone
    rw [hcalls]; simp [buyPort, hlag, hz]

/-- C1, at the two scenarios of the specification: a two-member LAG in zone `blue`
buys a zoned LAG port with count 2 and zone `blue`; an unzoned single port with
visibility true, term 12, speed 1000 and location 7 buys a single port that is not
hidden from the marketplace. -/
theorem create_issues_matching_variant_witness :
    (okClient.Location.GetLocationByID zonedLagData.fields.location_id).2 = none
      ∧ (resourceMegaportPortCreate zonedLagData okClient).trace.filter Event.isBuy =
          [Event.call (.BuyZonedLAGPort "edge-a" 12 1000 7 "AU" 2 false "blue")]
      ∧ (resourceMegaportPortCreate sampleData okClient).trace.filter Event.isBuy =
          [Event.call (.BuySinglePort "edge-a" 12 1000 7 "AU" false)] :=
  ⟨rfl,
    (create_issues_matching_variant zonedLagData okClient rfl).2.2.2 rfl (by decide),
    (create_issues_matching_variant sampleData okClient rfl).1 rfl rfl⟩

/-- C8. When `GetLocationByID` returns an error, Create returns that same error, its
only effect is the lookup itself, and the resource data, the id included, are left as
they were: no provisioning call, no `d.SetId`, no `WaitForPortProvisioning` and no
`GetPortDetails`. -/
theorem create_location_error_aborts (d : ResourceData) (m : MegaportClient) (e : GoError)
    (hloc : (m.Location.GetLocationByID d.fields.location_id).2 = some e) :
    (resourceMegaportPortCreate d m).err = some e
      ∧ (resourceMegaportPortCreate d m).d = d
      ∧ (resourceMegaportPortCreate d m).trace = [Event.call (.GetLocationByID d.fields.location_id)]
      ∧ (resourceMegaportPortCreate d m).trace.filter Event.isBuy = []
      ∧ (resourceMegaportPortCreate d m).trace.filter Event.isSetId = []
      ∧ (resourceMegaportPortCreate d m).trace.filter Event.isWait = []
      ∧ (resourceMegaportPortCreate d m).trace.filter Event.isGetPortDetails = [] := by
  have hcreate : resourceMegaportPortCreate d m =
      ⟨some e, d, [Event.call (.GetLocationByID d.fields.location_id)]⟩ := by
    unfold resourceMegaportPortCreate
    dsimp only
    rw [hloc]
  rw [hcreate]
  simp [Event.isBuy, Call.isBuy, Event.isSetId, Event.isWait, Event.isGetPortDetails]

/-- C8, at a concrete input: creating the sample port when the lookup of location 7
fails. -/
theorem create_location_error_aborts_witness :
    (failingLocationClient.Location.GetLocationByID sampleData.fields.location_id).2 =
        some (errors.New "unknown location")
      ∧ (resourceMegaportPortCreate sampleData failingLocationClient).err =
          some (errors.New "unknown location")
      ∧ (resourceMegaportPortCreate sampleData failingLocationClient).d = sampleData
      ∧ (resourceMegaportPortCreate sampleData failingLocationClient).trace =
          [Event.call (.GetLocationByID 7)] :=
  ⟨rfl,
    (create_location_error_aborts sampleData failingLocationClient _ rfl).1,
    (create_location_error_aborts sampleData failingLocationClient _ rfl).2.1,
    (create_location_error_aborts sampleData failingLocationClient _ rfl).2.2.1⟩

/-- After a successful location lookup, a run of Create whose selected provisioning
call is `c` with answer `r`: on a nil error the effects are the lookup, `c`,
`d.SetId r.1`, the wait and the read for `r.1`, and data and result are those of Read
on the data with the new id; on an error `e` Create returns `e` and stops after `c`. -/
theorem create_run (d : ResourceData) (m : MegaportClient)
    (hloc : (m.Location.GetLocationByID d.fields.location_id).2 = none)
    (c : Call) (r : String × Option GoError)
    (hb : buyPort m.Port d.fields.port_name d.fields.term d.fields.port_speed
        d.fields.location_id (m.Location.GetLocationByID d.fields.location_id).1.Market
        d.fields.lag_port_count d.fields.marketplace_visibility d.fields.lag
        d.fields.diversity_zone = (c, r)) :
    (r.2 = none →
        (resourceMegaportPortCreate d m).trace =
          [Event.call (.GetLocationByID d.fields.location_id), Event.call c, Event.setId r.1,
            Event.call (.WaitForPortProvisioning r.1), Event.call (.GetPortDetails r.1)]
        ∧ (resourceMegaportPortCreate d m).d.id = r.1
        ∧ (resourceMegaportPortCreate d m).d = (resourceMegaportPortRead (d.SetId r.1) m).d
        ∧ (resourceMegaportPortCreate d m).err = (resourceMegaportPortRead (d.SetId r.1) m).err)
      ∧ (∀ e : GoError, r.2 = some e →
        (resourceMegaportPortCreate d m).err = some e
        ∧ (resourceMegaportPortCreate d m).d = d
        ∧ (resourceMegaportPortCreate d m).trace = [Event.call (.GetLocationByID d.fields.location_id), Event.call c]) := by
  constructor
  · intro hnil
    have hbuy : (buyPort m.Port d.fields.port_name d.fields.term d.fields.port_speed
        d.fields.location_id (m.Location.GetLocationByID d.fields.location_id).1.Market
        d.fields.lag_port_count d.fields.marketplace_visibility d.fields.lag
        d.fields.diversity_zone).2.2 = none := by rw [hb]; exact hnil
    have hs := create_of_buy_success d m hloc hbuy
    rw [hb] at hs
    refine ⟨hs.1, hs.2, ?_, ?_⟩
    · unfold resourceMegaportPortCreate
      dsimp only
      rw [hloc]
      dsimp only
      rw [hbuy]
      dsimp only
      rw [hb]
    · unfold resourceMegaportPortCreate
      dsimp only
      rw [hloc]
      dsimp only
      rw [hbuy]
      dsimp only
      rw [hb]
  · intro e herr
    have hbuy : (buyPort m.Port d.fields.port_name d.fields.term d.fields.port_speed
        d.fields.location_id (m.Location.GetLocationByID d.fields.location_id).1.Market
        d.fields.lag_port_count d.fields.marketplace_visibility d.fields.lag
        d.fields.diversity_zone).2.2 = some e := by rw [hb]; exact herr
    have he := create_of_buy_error d m e hloc hbuy
    rw [hb] at he
    rw [he]
    exact ⟨rfl, rfl, rfl⟩

/-- C9. After a successful location lookup, for each of the four provisioning variants
(selected by `lag` and by whether `diversity_zone` is empty) and whatever the client
answers to that call: when the call returns a nil error, the effects of Create are,
in this order, the lookup, the provisioning call, `d.SetId` with the identifier the
client returned, `WaitForPortProvisioning` with that identifier, and the
`GetPortDetails` of Read with that identifier; the resource id at the end is that
identifier, and the data and the result are those of Read run on the data with the
new id.  When the call returns an error, Create returns that error unchanged, the
resource data, the id included, are left as they were, and the effects end with the
provisioning call: no `d.SetId`, no wait, no read. -/
theorem create_effect_order (d : ResourceData) (m : MegaportClient)
    (hloc : (m.Location.GetLocationByID d.fields.location_id).2 = none) :
    (d.fields.lag = false → d.fields.diversity_zone = "" →
        ((m.Port.BuySinglePort d.fields.port_name d.fields.term d.fields.port_speed
            d.fields.location_id (m.Location.GetLocationByID d.fields.location_id).1.Market
            (!d.fields.marketplace_visibility)).2 = none →
          (resourceMegaportPortCreate d m).trace =
            [Event.call (.GetLocationByID d.fields.location_id),
              Event.call (.BuySinglePort d.fields.port_name d.fields.term d.fields.port_speed
            d.fields.location_id (m.Location.GetLocationByID d.fields.location_id).1.Market
            (!d.fields.marketplace_visibility)),
              Event.setId (m.Port.BuySinglePort d.fields.port_name d.fields.term d.fields.port_speed
            d.fields.location_id (m.Location.GetLocationByID d.fields.location_id).1.Market
            (!d.fields.marketplace_visibility)).1,
              Event.call (.WaitForPortProvisioning (m.Port.BuySinglePort d.fields.port_name d.fields.term d.fields.port_speed
            d.fields.location_id (m.Location.GetLocationByID d.fields.location_id).1.Market
            (!d.fields.marketplace_visibility)).1),
              Event.call (.GetPortDetails (m.Port.BuySinglePort d.fields.port_name d.fields.term d.fields.port_speed
            d.fields.location_id (m.Location.GetLocationByID d.fields.location_id).1.Market
            (!d.fields.marketplace_visibility)).1)]
          ∧ (resourceMegaportPortCreate d m).d.id = (m.Port.BuySinglePort d.fields.port_name d.fields.term d.fields.port_speed
            d.fields.location_id (m.Location.GetLocationByID d.fields.location_id).1.Market
            (!d.fields.marketplace_visibility)).1
          ∧ (resourceMegaportPortCreate d m).d =
              (resourceMegaportPortRead (d.SetId (m.Port.BuySinglePort d.fields.port_name d.fields.term d.fields.port_speed
            d.fields.location_id (m.Location.GetLocationByID d.fields.location_id).1.Market
            (!d.fields.marketplace_visibility)).1) m).d
          ∧ (resourceMegaportPortCreate d m).err =
              (resourceMegaportPortRead (d.SetId (m.Port.BuySinglePort d.fields.port_name d.fields.term d.fields.port_speed
            d.fields.location_id (m.Location.GetLocationByID d.fields.location_id).1.Market
            (!d.fields.marketplace_visibility)).1) m).err)
        ∧ (∀ e : GoError, (m.Port.BuySinglePort d.fields.port_name d.fields.term d.fields.port_speed
            d.fields.location_id (m.Location.GetLocationByID d.fields.location_id).1.Market
            (!d.fields.marketplace_visibility)).2 = some e →
          (resourceMegaportPortCreate d m).err = some e
          ∧ (resourceMegaportPortCreate d m).d = d
          ∧ (resourceMegaportPortCreate d m).trace =
            [Event.call (.GetLocationByID d.fields.location_id),
              Event.call (.BuySinglePort d.fields.port_name d.fields.term d.fields.port_speed
            d.fields.location_id (m.Location.GetLocationByID d.fields.location_id).1.Market
            (!d.fields.marketplace_visibility))]))
      ∧ (d.fields.lag = false → d.fields.diversity_zone ≠ "" →
        ((m.Port.BuyZonedSinglePort d.fields.port_name d.fields.term d.fields.port_speed
            d.fields.location_id (m.Location.GetLocationByID d.fields.location_id).1.Market
            (!d.fields.marketplace_visibility) d.fields.diversity_zone).2 = none →
          (resourceMegaportPortCreate d m).trace =
            [Event.call (.GetLocationByID d.fields.location_id),
              Event.call (.BuyZonedSinglePort d.fields.port_name d.fields.term d.fields.port_speed
            d.fields.location_id (m.Location.GetLocationByID d.fields.location_id).1.Market
            (!d.fields.marketplace_visibility) d.fields.diversity_zone),
              Event.setId (m.Port.BuyZonedSinglePort d.fields.port_name d.fields.term d.fields.port_speed
            d.fields.location_id (m.Location.GetLocationByID d.fields.location_id).1.Market
            (!d.fields.marketplace_visibility) d.fields.diversity_zone).1,
              Event.call (.WaitForPortProvisioning (m.Port.BuyZonedSinglePort d.fields.port_name d.fields.term d.fields.port_speed
            d.fields.location_id (m.Location.GetLocationByID d.fields.location_id).1.Market
            (!d.fields.marketplace_visibility) d.fields.diversity_zone).1),
              Event.call (.GetPortDetails (m.Port.BuyZonedSinglePort d.fields.port_name d.fields.term d.fields.port_speed
            d.fields.location_id (m.Location.GetLocationByID d.fields.location_id).1.Market
            (!d.fields.marketplace_visibility) d.fields.diversity_zone).1)]
          ∧ (resourceMegaportPortCreate d m).d.id = (m.Port.BuyZonedSinglePort d.fields.port_name d.fields.term d.fields.port_speed
            d.fields.location_id (m.Location.GetLocationByID d.fields.location_id).1.Market
            (!d.fields.marketplace_visibility) d.fields.diversity_zone).1
          ∧ (resourceMegaportPortCreate d m).d =
              (resourceMegaportPortRead (d.SetId (m.Port.BuyZonedSinglePort d.fields.port_name d.fields.term d.fields.port_speed
            d.fields.location_id (m.Location.GetLocationByID d.fields.location_id).1.Market
            (!d.fields.marketplace_visibility) d.fields.diversity_zone).1) m).d
          ∧ (resourceMegaportPortCreate d m).err =
              (resourceMegaportPortRead (d.SetId (m.Port.BuyZonedSinglePort d.fields.port_name d.fields.term d.fields.port_speed
            d.fields.location_id (m.Location.GetLocationByID d.fields.location_id).1.Market
            (!d.fields.marketplace_visibility) d.fields.diversity_zone).1) m).err)
        ∧ (∀ e : GoError, (m.Port.BuyZonedSinglePort d.fields.port_name d.fields.term d.fields.port_speed
            d.fields.location_id (m.Location.GetLocationByID d.fields.location_id).1.Market
            (!d.fields.marketplace_visibility) d.fields.diversity_zone).2 = some e →
          (resourceMegaportPortCreate d m).err = some e
          ∧ (resourceMegaportPortCreate d m).d = d
          ∧ (resourceMegaportPortCreate d m).trace =
            [Event.call (.GetLocationByID d.fields.location_id),
              Event.call (.BuyZonedSinglePort d.fields.port_name d.fields.term d.fields.port_speed
            d.fields.location_id (m.Location.GetLocationByID d.fields.location_id).1.Market
            (!d.fields.marketplace_visibility) d.fields.diversity_zone)]))
      ∧ (d.fields.lag = true → d.fields.diversity_zone = "" →
        ((m.Port.BuyLAGPort d.fields.port_name d.fields.term d.fields.port_speed
            d.fields.location_id (m.Location.GetLocationByID d.fields.location_id).1.Market
            d.fields.lag_port_count (!d.fields.marketplace_visibility)).2 = none →
          (resourceMegaportPortCreate d m).trace =
            [Event.call (.GetLocationByID d.fields.location_id),
              Event.call (.BuyLAGPort d.fields.port_name d.fields.term d.fields.port_speed
            d.fields.location_id (m.Location.GetLocationByID d.fields.location_id).1.Market
            d.fields.lag_port_count (!d.fields.marketplace_visibility)),
              Event.setId (m.Port.BuyLAGPort d.fields.port_name d.fields.term d.fields.port_speed
            d.fields.location_id (m.Location.GetLocationByID d.fields.location_id).1.Market
            d.fields.lag_port_count (!d.fields.marketplace_visibility)).1,
              Event.call (.WaitForPortProvisioning (m.Port.BuyLAGPort d.fields.port_name d.fields.term d.fields.port_speed
            d.fields.location_id (m.Location.GetLocationByID d.fields.location_id).1.Market
            d.fields.lag_port_count (!d.fields.marketplace_visibility)).1),
              Event.call (.GetPortDetails (m.Port.BuyLAGPort d.fields.port_name d.fields.term d.fields.port_speed
            d.fields.location_id (m.Location.GetLocationByID d.fields.location_id).1.Market
            d.fields.lag_port_count (!d.fields.marketplace_visibility)).1)]
          ∧ (resourceMegaportPortCreate d m).d.id = (m.Port.BuyLAGPort d.fields.port_name d.fields.term d.fields.port_speed
            d.fields.location_id (m.Location.GetLocationByID d.fields.location_id).1.Market
            d.fields.lag_port_count (!d.fields.marketplace_visibility)).1
          ∧ (resourceMegaportPortCreate d m).d =
              (resourceMegaportPortRead (d.SetId (m.Port.BuyLAGPort d.fields.port_name d.fields.term d.fields.port_speed
            d.fields.location_id (m.Location.GetLocationByID d.fields.location_id).1.Market
            d.fields.lag_port_count (!d.fields.marketplace_visibility)).1) m).d
          ∧ (resourceMegaportPortCreate d m).err =
              (resourceMegaportPortRead (d.SetId (m.Port.BuyLAGPort d.fields.port_name d.fields.term d.fields.port_speed
            d.fields.location_id (m.Location.GetLocationByID d.fields.location_id).1.Market
            d.fields.lag_port_count (!d.fields.marketplace_visibility)).1) m).err)
        ∧ (∀ e : GoError, (m.Port.BuyLAGPort d.fields.port_name d.fields.term d.fields.port_speed
            d.fields.location_id (m.Location.GetLocationByID d.fields.location_id).1.Market
            d.fields.lag_port_count (!d.fields.marketplace_visibility)).2 = some e →
          (resourceMegaportPortCreate d m).err = some e
          ∧ (resourceMegaportPortCreate d m).d = d
          ∧ (resourceMegaportPortCreate d m).trace =
            [Event.call (.GetLocationByID d.fields.location_id),
              Event.call (.BuyLAGPort d.fields.port_name d.fields.term d.fields.port_speed
            d.fields.location_id (m.Location.GetLocationByID d.fields.location_id).1.Market
            d.fields.lag_port_count (!d.fields.marketplace_visibility))]))
      ∧ (d.fields.lag = true → d.fields.diversity_zone ≠ "" →
        ((m.Port.BuyZonedLAGPort d.fields.port_name d.fields.term d.fields.port_speed
            d.fields.location_id (m.Location.GetLocationByID d.fields.location_id).1.Market
            d.fields.lag_port_count (!d.fields.marketplace_visibility)
            d.fields.diversity_zone).2 = none →
          (resourceMegaportPortCreate d m).trace =
            [Event.call (.GetLocationByID d.fields.location_id),
              Event.call (.BuyZonedLAGPort d.fields.port_name d.fields.term d.fields.port_speed
            d.fields.location_id (m.Location.GetLocationByID d.fields.location_id).1.Market
            d.fields.lag_port_count (!d.fields.marketplace_visibility)
            d.fields.diversity_zone),
              Event.setId (m.Port.BuyZonedLAGPort d.fields.port_name d.fields.term d.fields.port_speed
            d.fields.location_id (m.Location.GetLocationByID d.fields.location_id).1.Market
            d.fields.lag_port_count (!d.fields.marketplace_visibility)
            d.fields.diversity_zone).1,
              Event.call (.WaitForPortProvisioning (m.Port.BuyZonedLAGPort d.fields.port_name d.fields.term d.fields.port_speed
            d.fields.location_id (m.Location.GetLocationByID d.fields.location_id).1.Market
            d.fields.lag_port_count (!d.fields.marketplace_visibility)
            d.fields.diversity_zone).1),
              Event.call (.GetPortDetails (m.Port.BuyZonedLAGPort d.fields.port_name d.fields.term d.fields.port_speed
            d.fields.location_id (m.Location.GetLocationByID d.fields.location_id).1.Market
            d.fields.lag_port_count (!d.fields.marketplace_visibility)
            d.fields.diversity_zone).1)]
          ∧ (resourceMegaportPortCreate d m).d.id = (m.Port.BuyZonedLAGPort d.fields.port_name d.fields.term d.fields.port_speed
            d.fields.location_id (m.Location.GetLocationByID d.fields.location_id).1.Market
            d.fields.lag_port_count (!d.fields.marketplace_visibility)
            d.fields.diversity_zone).1
          ∧ (resourceMegaportPortCreate d m).d =
              (resourceMegaportPortRead (d.SetId (m.Port.BuyZonedLAGPort d.fields.port_name d.fields.term d.fields.port_speed
            d.fields.location_id (m.Location.GetLocationByID d.fields.location_id).1.Market
            d.fields.lag_port_count (!d.fields.marketplace_visibility)
            d.fields.diversity_zone).1) m).d
          ∧ (resourceMegaportPortCreate d m).err =
              (resourceMegaportPortRead (d.SetId (m.Port.BuyZonedLAGPort d.fields.port_name d.fields.term d.fields.port_speed
            d.fields.location_id (m.Location.GetLocationByID d.fields.location_id).1.Market
            d.fields.lag_port_count (!d.fields.marketplace_visibility)
            d.fields.diversity_zone).1) m).err)
        ∧ (∀ e : GoError, (m.Port.BuyZonedLAGPort d.fields.port_name d.fields.term d.fields.port_speed
            d.fields.location_id (m.Location.GetLocationByID d.fields.location_id).1.Market
            d.fields.lag_port_count (!d.fields.marketplace_visibility)
            d.fields.diversity_zone).2 = some e →
          (resourceMegaportPortCreate d m).err = some e
          ∧ (resourceMegaportPortCreate d m).d = d
          ∧ (resourceMegaportPortCreate d m).trace =
            [Event.call (.GetLocationByID d.fields.location_id),
              Event.call (.BuyZonedLAGPort d.fields.port_name d.fields.term d.fields.port_speed
            d.fields.location_id (m.Location.GetLocationByID d.fields.location_id).1.Market
            d.fields.lag_port_count (!d.fields.marketplace_visibility)
            d.fields.diversity_zone)])) := by
  refine ⟨?_, ?_, ?_, ?_⟩
  · intro hlag hzone
    have hz : ¬ (len d.fields.diversity_zone > 0) := by
      rw [gt_iff_lt, len_pos_iff]; simpa using hzone
    exact create_run d m hloc _ _ (by simp [buyPort, hlag, hz])
  · intro hlag hzone
    have hz : len d.fields.diversity_zone > 0 := (len_pos_iff _).2 hzone
    exact create_run d m hloc _ _ (by simp [buyPort, hlag, hz])
  · intro hlag hzone
    have hz : ¬ (len d.fields.diversity_zone > 0) := by
      rw [gt_iff_lt, len_pos_iff]; simpa using hzone
    exact create_run d m hloc _ _ (by simp [buyPort, hlag, hz])
  · intro hlag hzone
    have hz : len d.fields.diversity_zone > 0 := (len_pos_iff _).2 hzone
    exact create_run d m hloc _ _ (by simp [buyPort, hlag, hz])

/-- C9, at concrete inputs: a single-port purchase that returns `port-9`, a
single-port purchase that fails, a zoned LAG purchase that returns `port-9` and a
zoned LAG purchase that fails. -/
theorem create_effect_order_witness :
    (okClient.Location.GetLocationByID sampleData.fields.location_id).2 = none
      ∧ (resourceMegaportPortCreate sampleData okClient).trace =
          [Event.call (.GetLocationByID 7),
            Event.call (.BuySinglePort "edge-a" 12 1000 7 "AU" false),
            Event.setId "port-9",
            Event.call (.WaitForPortProvisioning "port-9"),
            Event.call (.GetPortDetails "port-9")]
      ∧ (resourceMegaportPortCreate sampleData okClient).d.id = "port-9"
      ∧ (resourceMegaportPortCreate sampleData failingBuyClient).err =
          some (errors.New "insufficient credit")
      ∧ (resourceMegaportPortCreate sampleData failingBuyClient).d = sampleData
      ∧ (resourceMegaportPortCreate sampleData failingBuyClient).trace =
          [Event.call (.GetLocationByID 7),
            Event.call (.BuySinglePort "edge-a" 12 1000 7 "AU" false)]
      ∧ (resourceMegaportPortCreate zonedLagData okClient).trace =
          [Event.call (.GetLocationByID 7),
            Event.call (.BuyZonedLAGPort "edge-a" 12 1000 7 "AU" 2 false "blue"),
            Event.setId "port-9",
            Event.call (.WaitForPortProvisioning "port-9"),
            Event.call (.GetPortDetails "port-9")]
      ∧ (resourceMegaportPortCreate zonedLagData failingZonedLagBuyClient).err =
          some (errors.New "no capacity")
      ∧ (resourceMegaportPortCreate zonedLagData failingZonedLagBuyClient).d = zonedLagData
      ∧ (resourceMegaportPortCreate zonedLagData failingZonedLagBuyClient).trace =
          [Event.call (.GetLocationByID 7),
            Event.call (.BuyZonedLAGPort "edge-a" 12 1000 7 "AU" 2 false "blue")] :=
  ⟨rfl,
    (((create_effect_order sampleData okClient rfl).1 rfl rfl).1 rfl).1,
    (((create_effect_order sampleData okClient rfl).1 rfl rfl).1 rfl).2.1,
    (((create_effect_order sampleData failingBuyClient rfl).1 rfl rfl).2 _ rfl).1,
    (((create_effect_order sampleData failingBuyClient rfl).1 rfl rfl).2 _ rfl).2.1,
    (((create_effect_order sampleData failingBuyClient rfl).1 rfl rfl).2 _ rfl).2.2,
    (((create_effect_order zonedLagData okClient rfl).2.2.2 rfl (by decide)).1 rfl).1,
    (((create_effect_order zonedLagData failingZonedLagBuyClient rfl).2.2.2 rfl
      (by decide)).2 _ rfl).1,
    (((create_effect_order zonedLagData failingZonedLagBuyClient rfl).2.2.2 rfl
      (by decide)).2 _ rfl).2.1,
    (((create_effect_order zonedLagData failingZonedLagBuyClient rfl).2.2.2 rfl
      (by decide)).2 _ rfl).2.2⟩

end Megaport
